import Mathlib

/-!
# Per-header HTTP sticky-buffer stub (`src/detect-http-headers-stub.h`)

A shallow embedding of the keyword template: the four buffer extractors, the
setup hook and the registration routine.  The template is a C header that is
specialised by preprocessor symbols; here the symbols are the fields of
`Keyword`, and `#ifdef` becomes a test on a boolean field.

Calls into the host engine and into the HTTP parsers leave the file.  Each
extractor therefore returns, next to its C return value and the thread context
it leaves behind, the list of outside calls it made, in program order.
-/

namespace HttpHeadersStub

/-! ## Template parameters -/

/-- The preprocessor symbols one instantiation of the stub defines.
`KEYWORD_TOSERVER` and `KEYWORD_TOCLIENT` are `true` when the symbol is
defined; `KEYWORD_NAME_LEGACY` is `none` when it is not. -/
structure Keyword where
  KEYWORD_ID : Nat
  KEYWORD_NAME : String
  KEYWORD_NAME_LEGACY : Option String
  BUFFER_NAME : String
  BUFFER_DESC : String
  KEYWORD_DOC : String
  HEADER_NAME : String
  KEYWORD_TOSERVER : Bool
  KEYWORD_TOCLIENT : Bool

/-! ## Bytes, inspection buffers, thread context -/

/-- A run of `uint8_t`. -/
abbrev Bytes := List UInt8

/-- A `const uint8_t *`: `none` is `NULL`, `some bs` points at the bytes `bs`. -/
abbrev BytePtr := Option Bytes

/-- Modelled from the spec: `InspectionBuffer` is declared in
`detect-engine-buffer.h`, outside this file.  Spec: "a scratch slot holding a
byte slice plus a filled/empty flag".  The stub reads the field `inspect`,
which is `NULL` while the slot is empty. -/
structure InspectionBuffer where
  inspect : BytePtr
  inspect_len : Nat
deriving DecidableEq

/-- Modelled from the spec: one transform of a chain, as a function on bytes. -/
abbrev Transform := Bytes → Bytes

/-- Modelled from the spec: the transform chain behind
`const DetectEngineTransforms *`, declared in `detect.h`; first transform first. -/
abbrev DetectEngineTransforms := List Transform

/-- Modelled from the spec: `DetectEngineThreadCtx` is declared in `detect.h`,
outside this file.  The stub reaches one inspection-buffer slot per list id. -/
structure DetectEngineThreadCtx where
  buffers : Int → InspectionBuffer

/-- The unused `Flow *_f` argument. -/
abbrev Flow := Unit

/-- Modelled from the spec: the direction constants handed to the HTTP/2
lookup, defined outside this file. -/
inductive StreamDir where
  | STREAM_TOSERVER
  | STREAM_TOCLIENT
deriving DecidableEq

/-! ## HTTP parser surface (answers of the parsers, which live elsewhere) -/

/-- Modelled from the spec: `htp_header_t` belongs to the HTTP/1 parser
(`htp/htp_rs.h`).  The record holds what the parser answers about one header:
`value` is `htp_header_value(h) != NULL`, `value_len` is
`htp_header_value_len(h)` (a `size_t`), `value_ptr` is
`htp_header_value_ptr(h)`. -/
structure htp_header_t where
  value : Bool
  value_len : Nat
  value_ptr : BytePtr

/-- Modelled from the spec: `htp_tx_t` belongs to the HTTP/1 parser
(`htp/htp_rs.h`).  The record holds what the parser answers about one
transaction:
`request_headers` is `htp_tx_request_headers(tx) != NULL`,
`request_header name` is `htp_tx_request_header(tx, name)` (`none` is `NULL`),
and likewise for the response side. -/
structure htp_tx_t where
  request_headers : Bool
  request_header : String → Option htp_header_t
  response_headers : Bool
  response_header : String → Option htp_header_t

/-- Modelled from the spec: result of one `SCHttp2TxGetHeaderValue` call
(`rust.h`): the return value and what the out-parameters `b` and `b_len` (a
`uint32_t`) hold afterwards. -/
structure Http2HeaderValue where
  ret : Nat
  b : BytePtr
  b_len : Nat

/-- Modelled from the spec: the HTTP/2 transaction behind `void *txv`, as what
the HTTP/2 parser answers for it:
`SCHttp2TxGetHeaderValue(tx, direction, name, &b, &b_len)`. -/
structure HTTP2Transaction where
  SCHttp2TxGetHeaderValue : StreamDir → String → Http2HeaderValue

/-! ## Outside calls -/

/-- One call that leaves the stub, with the arguments that matter.  The debug
logging macros `SCEnter` and `SCLogDebug` are not recorded. -/
inductive Call where
  | InspectionBufferGet (list_id : Int)
  | htp_tx_request_headers
  | htp_tx_request_header (name : String)
  | htp_tx_response_headers
  | htp_tx_response_header (name : String)
  | htp_header_value
  | htp_header_value_len
  | htp_header_value_ptr
  | SCHttp2TxGetHeaderValue (direction : StreamDir) (name : String)
  | InspectionBufferSetupAndApplyTransforms (list_id : Int) (data : BytePtr)
      (data_len : Nat) (transforms : DetectEngineTransforms)

/-- Tells whether a call consults an HTTP parser. -/
def Call.isParserLookup : Call → Bool
  | .htp_tx_request_headers => true
  | .htp_tx_request_header _ => true
  | .htp_tx_response_headers => true
  | .htp_tx_response_header _ => true
  | .htp_header_value => true
  | .htp_header_value_len => true
  | .htp_header_value_ptr => true
  | .SCHttp2TxGetHeaderValue _ _ => true
  | _ => false

/-- Tells whether a call is one of `InspectionBufferSetupAndApplyTransforms`. -/
def Call.isSetup : Call → Bool
  | .InspectionBufferSetupAndApplyTransforms _ _ _ _ => true
  | _ => false

/-! ## Host-engine buffer helpers -/

/-- Modelled from the spec: `InspectionBufferGet` is declared in
`detect-engine-buffer.h`, outside this file.  Spec: "Acquire the
inspection-buffer slot addressed by `list-id` from the thread context." -/
def InspectionBufferGet (det_ctx : DetectEngineThreadCtx) (list_id : Int) : InspectionBuffer :=
  det_ctx.buffers list_id

/-- Run a transform chain over bytes, first transform first. -/
def applyTransforms (transforms : DetectEngineTransforms) (bs : Bytes) : Bytes :=
  transforms.foldl (fun acc t => t acc) bs

/-- Modelled from the spec: `InspectionBufferSetupAndApplyTransforms` is
declared in `detect-engine-buffer.h`, outside this file.  Spec: "install the
raw bytes into the slot, apply the provided transform chain in order"; the
slot passes from empty to filled.  The raw bytes are the first `data_len`
bytes at `data`. -/
def InspectionBufferSetupAndApplyTransforms (det_ctx : DetectEngineThreadCtx) (list_id : Int)
    (data : BytePtr) (data_len : Nat) (transforms : DetectEngineTransforms) :
    DetectEngineThreadCtx :=
  let out := applyTransforms transforms ((data.getD []).take data_len)
  { buffers := fun i =>
      if i = list_id then { inspect := some out, inspect_len := out.length }
      else det_ctx.buffers i }

/-! ## The four extractors -/

/-- What one extractor call produces: `ret` is the returned
`InspectionBuffer *` (`none` is `NULL`, `some i` the address of slot `i`),
`det_ctx` the thread context afterwards, `calls` the outside calls made. -/
structure Extracted where
  ret : Option Int
  det_ctx : DetectEngineThreadCtx
  calls : List Call

/-- Source function `GetRequestData`, lines 47-75: the HTTP/1 request extractor. -/
def GetRequestData (HEADER_NAME : String) (det_ctx : DetectEngineThreadCtx)
    (transforms : DetectEngineTransforms) (_f : Flow) (_flow_flags : Nat)
    (txv : htp_tx_t) (list_id : Int) : Extracted :=
  let buffer := InspectionBufferGet det_ctx list_id
  if buffer.inspect = none then
    let tx := txv
    if tx.request_headers = false then
      { ret := none, det_ctx := det_ctx,
        calls := [.InspectionBufferGet list_id, .htp_tx_request_headers] }
    else
      match tx.request_header HEADER_NAME with
      | none =>
        { ret := none, det_ctx := det_ctx,
          calls := [.InspectionBufferGet list_id, .htp_tx_request_headers,
            .htp_tx_request_header HEADER_NAME] }
      | some h =>
        if h.value = false then
          { ret := none, det_ctx := det_ctx,
            calls := [.InspectionBufferGet list_id, .htp_tx_request_headers,
              .htp_tx_request_header HEADER_NAME, .htp_header_value] }
        else
          let data_len := h.value_len % 2 ^ 32
          let data := h.value_ptr
          { ret := some list_id,
            det_ctx := InspectionBufferSetupAndApplyTransforms det_ctx list_id data data_len
              transforms,
            calls := [.InspectionBufferGet list_id, .htp_tx_request_headers,
              .htp_tx_request_header HEADER_NAME, .htp_header_value, .htp_header_value_len,
              .htp_header_value_ptr,
              .InspectionBufferSetupAndApplyTransforms list_id data data_len transforms] }
  else
    { ret := some list_id, det_ctx := det_ctx, calls := [.InspectionBufferGet list_id] }

/-- Source function `GetRequestData2`, lines 77-97: the HTTP/2 request extractor. -/
def GetRequestData2 (HEADER_NAME : String) (det_ctx : DetectEngineThreadCtx)
    (transforms : DetectEngineTransforms) (_f : Flow) (_flow_flags : Nat)
    (txv : HTTP2Transaction) (list_id : Int) : Extracted :=
  let buffer := InspectionBufferGet det_ctx list_id
  if buffer.inspect = none then
    let r := txv.SCHttp2TxGetHeaderValue .STREAM_TOSERVER HEADER_NAME
    let b_len := r.b_len
    let b := r.b
    if r.ret ≠ 1 then
      { ret := none, det_ctx := det_ctx,
        calls := [.InspectionBufferGet list_id,
          .SCHttp2TxGetHeaderValue .STREAM_TOSERVER HEADER_NAME] }
    else if b = none ∨ b_len = 0 then
      { ret := none, det_ctx := det_ctx,
        calls := [.InspectionBufferGet list_id,
          .SCHttp2TxGetHeaderValue .STREAM_TOSERVER HEADER_NAME] }
    else
      { ret := some list_id,
        det_ctx := InspectionBufferSetupAndApplyTransforms det_ctx list_id b b_len transforms,
        calls := [.InspectionBufferGet list_id,
          .SCHttp2TxGetHeaderValue .STREAM_TOSERVER HEADER_NAME,
          .InspectionBufferSetupAndApplyTransforms list_id b b_len transforms] }
  else
    { ret := some list_id, det_ctx := det_ctx, calls := [.InspectionBufferGet list_id] }

/-- Source function `GetResponseData`, lines 101-129: the HTTP/1 response extractor. -/
def GetResponseData (HEADER_NAME : String) (det_ctx : DetectEngineThreadCtx)
    (transforms : DetectEngineTransforms) (_f : Flow) (_flow_flags : Nat)
    (txv : htp_tx_t) (list_id : Int) : Extracted :=
  let buffer := InspectionBufferGet det_ctx list_id
  if buffer.inspect = none then
    let tx := txv
    if tx.response_headers = false then
      { ret := none, det_ctx := det_ctx,
        calls := [.InspectionBufferGet list_id, .htp_tx_response_headers] }
    else
      match tx.response_header HEADER_NAME with
      | none =>
        { ret := none, det_ctx := det_ctx,
          calls := [.InspectionBufferGet list_id, .htp_tx_response_headers,
            .htp_tx_response_header HEADER_NAME] }
      | some h =>
        if h.value = false then
          { ret := none, det_ctx := det_ctx,
            calls := [.InspectionBufferGet list_id, .htp_tx_response_headers,
              .htp_tx_response_header HEADER_NAME, .htp_header_value] }
        else
          let data_len := h.value_len % 2 ^ 32
          let data := h.value_ptr
          { ret := some list_id,
            det_ctx := InspectionBufferSetupAndApplyTransforms det_ctx list_id data data_len
              transforms,
            calls := [.InspectionBufferGet list_id, .htp_tx_response_headers,
              .htp_tx_response_header HEADER_NAME, .htp_header_value, .htp_header_value_len,
              .htp_header_value_ptr,
              .InspectionBufferSetupAndApplyTransforms list_id data data_len transforms] }
  else
    { ret := some list_id, det_ctx := det_ctx, calls := [.InspectionBufferGet list_id] }

/-- Source function `GetResponseData2`, lines 131-151: the HTTP/2 response extractor. -/
def GetResponseData2 (HEADER_NAME : String) (det_ctx : DetectEngineThreadCtx)
    (transforms : DetectEngineTransforms) (_f : Flow) (_flow_flags : Nat)
    (txv : HTTP2Transaction) (list_id : Int) : Extracted :=
  let buffer := InspectionBufferGet det_ctx list_id
  if buffer.inspect = none then
    let r := txv.SCHttp2TxGetHeaderValue .STREAM_TOCLIENT HEADER_NAME
    let b_len := r.b_len
    let b := r.b
    if r.ret ≠ 1 then
      { ret := none, det_ctx := det_ctx,
        calls := [.InspectionBufferGet list_id,
          .SCHttp2TxGetHeaderValue .STREAM_TOCLIENT HEADER_NAME] }
    else if b = none ∨ b_len = 0 then
      { ret := none, det_ctx := det_ctx,
        calls := [.InspectionBufferGet list_id,
          .SCHttp2TxGetHeaderValue .STREAM_TOCLIENT HEADER_NAME] }
    else
      { ret := some list_id,
        det_ctx := InspectionBufferSetupAndApplyTransforms det_ctx list_id b b_len transforms,
        calls := [.InspectionBufferGet list_id,
          .SCHttp2TxGetHeaderValue .STREAM_TOCLIENT HEADER_NAME,
          .InspectionBufferSetupAndApplyTransforms list_id b b_len transforms] }
  else
    { ret := some list_id, det_ctx := det_ctx, calls := [.InspectionBufferGet list_id] }

/-! ## Setup hook -/

/-- Modelled from the spec: application-layer protocol ids (`ALPROTO_*`),
defined outside this file; `other` stands for every protocol outside the HTTP
family. -/
inductive AppProto where
  | ALPROTO_UNKNOWN
  | ALPROTO_HTTP
  | ALPROTO_HTTP1
  | ALPROTO_HTTP2
  | other (id : Nat)
deriving DecidableEq

/-- The two host-engine calls the setup hook makes.  Both are declared in
`detect-engine-buffer.h` and `detect-parse.h`, outside this file, so the hook
takes them as parameters: each returns its status and the state it leaves. -/
structure SetupHost (DeCtx Sig : Type) where
  SCDetectBufferSetActiveList : DeCtx → Sig → Int → Int × DeCtx × Sig
  SCDetectSignatureSetAppProto : Sig → AppProto → Int × Sig

/-- Source function `DetectHttpHeadersSetupSticky`, lines 163-172.  Returns the status
together with the detect context and the signature as the call leaves them. -/
def DetectHttpHeadersSetupSticky {DeCtx Sig : Type} (host : SetupHost DeCtx Sig)
    (g_buffer_id : Int) (de_ctx : DeCtx) (s : Sig) (_str : String) : Int × DeCtx × Sig :=
  let r1 := host.SCDetectBufferSetActiveList de_ctx s g_buffer_id
  if r1.1 < 0 then
    (-1, r1.2.1, r1.2.2)
  else
    let r2 := host.SCDetectSignatureSetAppProto r1.2.2 .ALPROTO_HTTP
    if r2.1 < 0 then
      (-1, r1.2.1, r2.2)
    else
      (0, r1.2.1, r2.2)

/-- Modelled from the spec: the part of `DetectEngineCtx` the setup step
consults, the buffer ids that resolve to a registered buffer type. -/
structure DetectEngineCtx where
  buffer_types : List Int
deriving DecidableEq

/-- Modelled from the spec: the part of `Signature` the setup step writes, the
pinned application protocol and the active sticky list (`none` while no list
is active). -/
structure Signature where
  alproto : AppProto
  list : Option Int
deriving DecidableEq

/-- Modelled from the spec: `SCDetectBufferSetActiveList` lives in the detect
engine, outside this file.  Spec: "Record on the signature that subsequent
content-matches target this keyword's buffer id (the active sticky list)";
it fails when the "buffer id [is] unresolved". -/
def SCDetectBufferSetActiveList (de_ctx : DetectEngineCtx) (s : Signature) (list : Int) :
    Int × DetectEngineCtx × Signature :=
  if list ∈ de_ctx.buffer_types then (0, de_ctx, { s with list := some list })
  else (-1, de_ctx, s)

/-- Protocols of the HTTP family. -/
def AppProto.isHttpFamily : AppProto → Bool
  | .ALPROTO_HTTP => true
  | .ALPROTO_HTTP1 => true
  | .ALPROTO_HTTP2 => true
  | _ => false

/-- Modelled from the spec: `SCDetectSignatureSetAppProto` lives in the rule
parser, outside this file.  Spec: "Assert that the signature's
application-layer protocol is within the HTTP family; reject if the signature
has already been pinned to an incompatible protocol." -/
def SCDetectSignatureSetAppProto (s : Signature) (alproto : AppProto) : Int × Signature :=
  if s.alproto = .ALPROTO_UNKNOWN then (0, { s with alproto := alproto })
  else if s.alproto.isHttpFamily && alproto.isHttpFamily then (0, s)
  else (-1, s)

/-- The host engine as the spec describes it. -/
def specHost : SetupHost DetectEngineCtx Signature where
  SCDetectBufferSetActiveList := SCDetectBufferSetActiveList
  SCDetectSignatureSetAppProto := SCDetectSignatureSetAppProto

/-! ## Registration -/

/-- Modelled from the spec: the `SIGMATCH_*` flag bits of a keyword descriptor;
their numeric values are defined in `detect.h`, outside this file, so a flag
word is the set of the bits that are on and `|=` is union.  `other` stands for
every bit the stub does not name. -/
inductive SigmatchFlag where
  | SIGMATCH_NOOPT
  | SIGMATCH_OPTIONAL_OPT
  | SIGMATCH_INFO_STICKY_BUFFER
  | SIGMATCH_SUPPORT_DIR
  | other (bit : Nat)
deriving DecidableEq

/-- Modelled from the spec: direction flag of a registration
(`SIG_FLAG_TOSERVER`, `SIG_FLAG_TOCLIENT`), defined in `detect.h`. -/
inductive SigDir where
  | SIG_FLAG_TOSERVER
  | SIG_FLAG_TOCLIENT
deriving DecidableEq

/-- Modelled from the spec: the parser progress constants the stub registers
under, defined by the two HTTP parsers. -/
inductive Progress where
  | HTP_REQUEST_PROGRESS_HEADERS
  | HTP_RESPONSE_PROGRESS_HEADERS
  | HTTP2StateDataClient
  | HTTP2StateDataServer
deriving DecidableEq

/-- Address of one of the four extractors. -/
inductive GetDataFn where
  | GetRequestData
  | GetRequestData2
  | GetResponseData
  | GetResponseData2
deriving DecidableEq

/-- Tells whether an extractor is one of the two request extractors. -/
def GetDataFn.isRequest : GetDataFn → Bool
  | .GetRequestData => true
  | .GetRequestData2 => true
  | _ => false

/-- Address of the prefilter registrar handed to `DetectAppLayerMpmRegister`. -/
inductive MpmRegistrar where
  | PrefilterGenericMpmRegister
deriving DecidableEq

/-- Address of the inspect callback handed to `DetectAppLayerInspectEngineRegister`. -/
inductive InspectCallback where
  | DetectEngineInspectBufferGeneric
deriving DecidableEq

/-- Address of a keyword setup hook. -/
inductive SetupHook where
  | DetectHttpHeadersSetupSticky
deriving DecidableEq

/-- Arguments of one `DetectAppLayerMpmRegister` call, in argument order. -/
structure MpmRegistration where
  name : String
  direction : SigDir
  priority : Int
  PrefilterRegister : MpmRegistrar
  GetData : GetDataFn
  alproto : AppProto
  tx_min_progress : Progress
deriving DecidableEq

/-- Arguments of one `DetectAppLayerInspectEngineRegister` call, in argument order. -/
structure InspectEngineRegistration where
  name : String
  alproto : AppProto
  dir : SigDir
  progress : Progress
  Callback : InspectCallback
  GetData : GetDataFn
deriving DecidableEq

/-- Modelled from the spec: one row of `sigmatch_table` (`detect.h`), with the
fields the stub writes; `alias_` is the C field `alias`. -/
structure SigTableElmt where
  name : Option String
  alias_ : Option String
  desc : Option String
  url : Option String
  Setup : Option SetupHook
  flags : Finset SigmatchFlag

/-- The process-wide state registration writes: the keyword table, the calls
received by the two registries, the buffer-type descriptions, the static
`g_buffer_id` of line 44, and `buffer_type_by_name`, the answer
`DetectBufferTypeGetByName` gives at the end of the registration. -/
structure DetectRegistry where
  sigmatch_table : Nat → SigTableElmt
  app_mpms : List MpmRegistration
  app_inspect_engines : List InspectEngineRegistration
  buffer_type_desc : List (String × String)
  buffer_type_by_name : String → Int
  g_buffer_id : Int

/-- Write one row of `sigmatch_table`. -/
def DetectRegistry.modifyRow (st : DetectRegistry) (id : Nat) (f : SigTableElmt → SigTableElmt) :
    DetectRegistry :=
  { st with sigmatch_table := fun i => if i = id then f (st.sigmatch_table i)
                                       else st.sigmatch_table i }

/-- Modelled from the spec: `DetectAppLayerMpmRegister` is declared in
`detect-engine-mpm.h`, outside this file.  Spec: "Register a prefilter-MPM
entry binding (BUFFER_NAME, direction, priority, registrar, extractor,
protocol id, progress milestone)". -/
def DetectAppLayerMpmRegister (st : DetectRegistry) (name : String) (direction : SigDir)
    (priority : Int) (PrefilterRegister : MpmRegistrar) (GetData : GetDataFn)
    (alproto : AppProto) (tx_min_progress : Progress) : DetectRegistry :=
  { st with app_mpms := st.app_mpms ++
      [{ name := name, direction := direction, priority := priority,
         PrefilterRegister := PrefilterRegister, GetData := GetData, alproto := alproto,
         tx_min_progress := tx_min_progress }] }

/-- Modelled from the spec: `DetectAppLayerInspectEngineRegister` is declared
in `detect-engine.h`, outside this file.  Spec: "Register a corresponding
inspection-engine entry". -/
def DetectAppLayerInspectEngineRegister (st : DetectRegistry) (name : String)
    (alproto : AppProto) (dir : SigDir) (progress : Progress) (Callback : InspectCallback)
    (GetData : GetDataFn) : DetectRegistry :=
  { st with app_inspect_engines := st.app_inspect_engines ++
      [{ name := name, alproto := alproto, dir := dir, progress := progress,
         Callback := Callback, GetData := GetData }] }

/-- Modelled from the spec: `DetectBufferTypeSetDescriptionByName` is declared
in `detect-engine-buffer.h`, outside this file.  Spec: "Record the human
description for the buffer type under BUFFER_NAME." -/
def DetectBufferTypeSetDescriptionByName (st : DetectRegistry) (name desc : String) :
    DetectRegistry :=
  { st with buffer_type_desc := st.buffer_type_desc ++ [(name, desc)] }

/-- Source function `DetectHttpHeadersRegisterStub`, lines 174-218, statement by
statement.
The test on line 183 names `KEYWORD_TOSERVER` twice, as the source does. -/
def DetectHttpHeadersRegisterStub (k : Keyword) (st : DetectRegistry) : DetectRegistry :=
  let st := st.modifyRow k.KEYWORD_ID fun e => { e with name := some k.KEYWORD_NAME }
  let st := match k.KEYWORD_NAME_LEGACY with
    | some legacy => st.modifyRow k.KEYWORD_ID fun e => { e with alias_ := some legacy }
    | none => st
  let st := st.modifyRow k.KEYWORD_ID fun e =>
    { e with desc := some (k.KEYWORD_NAME ++ " sticky buffer for the " ++ k.BUFFER_DESC) }
  let st := st.modifyRow k.KEYWORD_ID fun e => { e with url := some ("/rules/" ++ k.KEYWORD_DOC) }
  let st := st.modifyRow k.KEYWORD_ID fun e =>
    { e with Setup := some .DetectHttpHeadersSetupSticky }
  let st :=
    if k.KEYWORD_TOSERVER && k.KEYWORD_TOSERVER then
      st.modifyRow k.KEYWORD_ID fun e =>
        { e with flags := e.flags ∪
            {.SIGMATCH_OPTIONAL_OPT, .SIGMATCH_INFO_STICKY_BUFFER, .SIGMATCH_SUPPORT_DIR} }
    else
      st.modifyRow k.KEYWORD_ID fun e =>
        { e with flags := e.flags ∪ {.SIGMATCH_NOOPT, .SIGMATCH_INFO_STICKY_BUFFER} }
  let st :=
    if k.KEYWORD_TOSERVER then
      let st := DetectAppLayerMpmRegister st k.BUFFER_NAME .SIG_FLAG_TOSERVER 2
        .PrefilterGenericMpmRegister .GetRequestData .ALPROTO_HTTP1 .HTP_REQUEST_PROGRESS_HEADERS
      DetectAppLayerMpmRegister st k.BUFFER_NAME .SIG_FLAG_TOSERVER 2
        .PrefilterGenericMpmRegister .GetRequestData2 .ALPROTO_HTTP2 .HTTP2StateDataClient
    else st
  let st :=
    if k.KEYWORD_TOCLIENT then
      let st := DetectAppLayerMpmRegister st k.BUFFER_NAME .SIG_FLAG_TOCLIENT 2
        .PrefilterGenericMpmRegister .GetResponseData .ALPROTO_HTTP1 .HTP_RESPONSE_PROGRESS_HEADERS
      DetectAppLayerMpmRegister st k.BUFFER_NAME .SIG_FLAG_TOCLIENT 2
        .PrefilterGenericMpmRegister .GetResponseData2 .ALPROTO_HTTP2 .HTTP2StateDataServer
    else st
  let st :=
    if k.KEYWORD_TOSERVER then
      let st := DetectAppLayerInspectEngineRegister st k.BUFFER_NAME .ALPROTO_HTTP1
        .SIG_FLAG_TOSERVER .HTP_REQUEST_PROGRESS_HEADERS .DetectEngineInspectBufferGeneric
        .GetRequestData
      DetectAppLayerInspectEngineRegister st k.BUFFER_NAME .ALPROTO_HTTP2
        .SIG_FLAG_TOSERVER .HTTP2StateDataClient .DetectEngineInspectBufferGeneric
        .GetRequestData2
    else st
  let st :=
    if k.KEYWORD_TOCLIENT then
      let st := DetectAppLayerInspectEngineRegister st k.BUFFER_NAME .ALPROTO_HTTP1
        .SIG_FLAG_TOCLIENT .HTP_RESPONSE_PROGRESS_HEADERS .DetectEngineInspectBufferGeneric
        .GetResponseData
      DetectAppLayerInspectEngineRegister st k.BUFFER_NAME .ALPROTO_HTTP2
        .SIG_FLAG_TOCLIENT .HTTP2StateDataServer .DetectEngineInspectBufferGeneric
        .GetResponseData2
    else st
  let st := DetectBufferTypeSetDescriptionByName st k.BUFFER_NAME k.BUFFER_DESC
  { st with g_buffer_id := st.buffer_type_by_name k.BUFFER_NAME }

/-! ## Concrete inputs -/

/-- A keyword row nobody has written yet. -/
def emptyRow : SigTableElmt :=
  { name := none, alias_ := none, desc := none, url := none, Setup := none, flags := ∅ }

/-- The registration state before any keyword has registered. -/
def freshRegistry : DetectRegistry :=
  { sigmatch_table := fun _ => emptyRow, app_mpms := [], app_inspect_engines := [],
    buffer_type_desc := [], buffer_type_by_name := fun _ => 1, g_buffer_id := 0 }

/-- The instantiation of the spec's scenarios: `http.user_agent`, header
`User-Agent`, to-server only. -/
def http_user_agent : Keyword :=
  { KEYWORD_ID := 0, KEYWORD_NAME := "http.user_agent", KEYWORD_NAME_LEGACY := none,
    BUFFER_NAME := "http_user_agent", BUFFER_DESC := "http user agent",
    KEYWORD_DOC := "http-keywords.html#http-user-agent", HEADER_NAME := "User-Agent",
    KEYWORD_TOSERVER := true, KEYWORD_TOCLIENT := false }

/-- A thread context in which every inspection-buffer slot is empty. -/
def emptyCtx : DetectEngineThreadCtx :=
  { buffers := fun _ => { inspect := none, inspect_len := 0 } }

/-- The bytes `curl/8.0`. -/
def curlBytes : Bytes := [0x63, 0x75, 0x72, 0x6c, 0x2f, 0x38, 0x2e, 0x30]

/-- The bytes `Mozilla/5.0`. -/
def mozillaBytes : Bytes := [0x4d, 0x6f, 0x7a, 0x69, 0x6c, 0x6c, 0x61, 0x2f, 0x35, 0x2e, 0x30]

/-- An HTTP/1 transaction whose request and response carry the single header
`hdr` under the name `name`. -/
def txWith (name : String) (hdr : htp_header_t) : htp_tx_t :=
  { request_headers := true,
    request_header := fun n => if n = name then some hdr else none,
    response_headers := true,
    response_header := fun n => if n = name then some hdr else none }

/-- Scenario 1, `User-Agent: curl/8.0`. -/
def txCurl : htp_tx_t :=
  txWith "User-Agent" { value := true, value_len := 8, value_ptr := some curlBytes }

/-- Scenario 2, a message with parsed headers and no `User-Agent` among them. -/
def txNoUserAgent : htp_tx_t :=
  { request_headers := true, request_header := fun _ => none,
    response_headers := true, response_header := fun _ => none }

/-- Scenario 3, `User-Agent:` with an empty value: the header and its value
object exist, the value has length 0. -/
def txEmptyUserAgent : htp_tx_t :=
  txWith "User-Agent" { value := true, value_len := 0, value_ptr := some [] }

/-- A header whose reported `size_t` length is `2 ^ 32`, one past what a
`uint32_t` holds. -/
def txHuge : htp_tx_t :=
  txWith "User-Agent" { value := true, value_len := 4294967296, value_ptr := some curlBytes }

/-- Scenario 4, an HTTP/2 transaction with `user-agent: Mozilla/5.0` on the
request side and a matching header on the response side. -/
def h2Mozilla : HTTP2Transaction :=
  { SCHttp2TxGetHeaderValue := fun _ n =>
      if n = "User-Agent" then { ret := 1, b := some mozillaBytes, b_len := 11 }
      else { ret := 0, b := none, b_len := 0 } }

/-- An HTTP/2 transaction in which no header is found. -/
def h2NoHeader : HTTP2Transaction :=
  { SCHttp2TxGetHeaderValue := fun _ _ => { ret := 0, b := none, b_len := 0 } }

/-- A detect context in which buffer id 7 resolves. -/
def deCtx7 : DetectEngineCtx := { buffer_types := [7] }

/-- A signature already pinned to a protocol outside the HTTP family, with no
active sticky list yet. -/
def sigOtherProto : Signature := { alproto := .other 1, list := none }

/-! ## Registration: what the call appends -/

/-- The prefilter-MPM registrations of the to-server block, lines 191-194. -/
def mpmToServer (k : Keyword) : List MpmRegistration :=
  [{ name := k.BUFFER_NAME, direction := .SIG_FLAG_TOSERVER, priority := 2,
     PrefilterRegister := .PrefilterGenericMpmRegister, GetData := .GetRequestData,
     alproto := .ALPROTO_HTTP1, tx_min_progress := .HTP_REQUEST_PROGRESS_HEADERS },
   { name := k.BUFFER_NAME, direction := .SIG_FLAG_TOSERVER, priority := 2,
     PrefilterRegister := .PrefilterGenericMpmRegister, GetData := .GetRequestData2,
     alproto := .ALPROTO_HTTP2, tx_min_progress := .HTTP2StateDataClient }]

/-- The prefilter-MPM registrations of the to-client block, lines 197-200. -/
def mpmToClient (k : Keyword) : List MpmRegistration :=
  [{ name := k.BUFFER_NAME, direction := .SIG_FLAG_TOCLIENT, priority := 2,
     PrefilterRegister := .PrefilterGenericMpmRegister, GetData := .GetResponseData,
     alproto := .ALPROTO_HTTP1, tx_min_progress := .HTP_RESPONSE_PROGRESS_HEADERS },
   { name := k.BUFFER_NAME, direction := .SIG_FLAG_TOCLIENT, priority := 2,
     PrefilterRegister := .PrefilterGenericMpmRegister, GetData := .GetResponseData2,
     alproto := .ALPROTO_HTTP2, tx_min_progress := .HTTP2StateDataServer }]

/-- The inspection-engine registrations of the to-server block, lines 203-206. -/
def inspectToServer (k : Keyword) : List InspectEngineRegistration :=
  [{ name := k.BUFFER_NAME, alproto := .ALPROTO_HTTP1, dir := .SIG_FLAG_TOSERVER,
     progress := .HTP_REQUEST_PROGRESS_HEADERS, Callback := .DetectEngineInspectBufferGeneric,
     GetData := .GetRequestData },
   { name := k.BUFFER_NAME, alproto := .ALPROTO_HTTP2, dir := .SIG_FLAG_TOSERVER,
     progress := .HTTP2StateDataClient, Callback := .DetectEngineInspectBufferGeneric,
     GetData := .GetRequestData2 }]

/-- The inspection-engine registrations of the to-client block, lines 209-212. -/
def inspectToClient (k : Keyword) : List InspectEngineRegistration :=
  [{ name := k.BUFFER_NAME, alproto := .ALPROTO_HTTP1, dir := .SIG_FLAG_TOCLIENT,
     progress := .HTP_RESPONSE_PROGRESS_HEADERS, Callback := .DetectEngineInspectBufferGeneric,
     GetData := .GetResponseData },
   { name := k.BUFFER_NAME, alproto := .ALPROTO_HTTP2, dir := .SIG_FLAG_TOCLIENT,
     progress := .HTTP2StateDataServer, Callback := .DetectEngineInspectBufferGeneric,
     GetData := .GetResponseData2 }]

/-! ## Registration lemmas -/

/-- The prefilter-MPM registry after one registration. -/
theorem register_app_mpms (k : Keyword) (st : DetectRegistry) :
    (DetectHttpHeadersRegisterStub k st).app_mpms =
      st.app_mpms ++ ((if k.KEYWORD_TOSERVER then mpmToServer k else []) ++
        (if k.KEYWORD_TOCLIENT then mpmToClient k else [])) := by
  rcases k with ⟨id, nm, leg, bn, bd, doc, hn, ts, tc⟩
  cases ts <;> cases tc <;> cases leg <;>
    simp [DetectHttpHeadersRegisterStub, DetectAppLayerMpmRegister,
      DetectAppLayerInspectEngineRegister, DetectBufferTypeSetDescriptionByName,
      DetectRegistry.modifyRow, mpmToServer, mpmToClient]

/-- The inspection-engine registry after one registration. -/
theorem register_app_inspect_engines (k : Keyword) (st : DetectRegistry) :
    (DetectHttpHeadersRegisterStub k st).app_inspect_engines =
      st.app_inspect_engines ++ ((if k.KEYWORD_TOSERVER then inspectToServer k else []) ++
        (if k.KEYWORD_TOCLIENT then inspectToClient k else [])) := by
  rcases k with ⟨id, nm, leg, bn, bd, doc, hn, ts, tc⟩
  cases ts <;> cases tc <;> cases leg <;>
    simp [DetectHttpHeadersRegisterStub, DetectAppLayerMpmRegister,
      DetectAppLayerInspectEngineRegister, DetectBufferTypeSetDescriptionByName,
      DetectRegistry.modifyRow, inspectToServer, inspectToClient]

/-- The flag word of the keyword row after one registration: which flags are
added depends on `KEYWORD_TOSERVER` alone. -/
theorem register_flags (k : Keyword) (st : DetectRegistry) :
    ((DetectHttpHeadersRegisterStub k st).sigmatch_table k.KEYWORD_ID).flags =
      (st.sigmatch_table k.KEYWORD_ID).flags ∪
        (if k.KEYWORD_TOSERVER then
          {.SIGMATCH_OPTIONAL_OPT, .SIGMATCH_INFO_STICKY_BUFFER, .SIGMATCH_SUPPORT_DIR}
         else {.SIGMATCH_NOOPT, .SIGMATCH_INFO_STICKY_BUFFER}) := by
  rcases k with ⟨id, nm, leg, bn, bd, doc, hn, ts, tc⟩
  cases ts <;> cases tc <;> cases leg <;>
    simp [DetectHttpHeadersRegisterStub, DetectAppLayerMpmRegister,
      DetectAppLayerInspectEngineRegister, DetectBufferTypeSetDescriptionByName,
      DetectRegistry.modifyRow]

/-! ## Registration theorems -/

/-- C1: evaluated at a to-server-only instantiation (`http.user_agent`), the
registration adds the three both-direction flags, `SIGMATCH_OPTIONAL_OPT`,
`SIGMATCH_INFO_STICKY_BUFFER` and `SIGMATCH_SUPPORT_DIR`, to an empty flag
word, and not the single-direction pair `SIGMATCH_NOOPT`,
`SIGMATCH_INFO_STICKY_BUFFER`: the test on line 183 reads `KEYWORD_TOSERVER`
twice and never looks at `KEYWORD_TOCLIENT`. -/
theorem register_flags_toserver_only :
    (http_user_agent.KEYWORD_TOSERVER = true ∧ http_user_agent.KEYWORD_TOCLIENT = false) ∧
    ((DetectHttpHeadersRegisterStub http_user_agent freshRegistry).sigmatch_table
        http_user_agent.KEYWORD_ID).flags =
      {.SIGMATCH_OPTIONAL_OPT, .SIGMATCH_INFO_STICKY_BUFFER, .SIGMATCH_SUPPORT_DIR} ∧
    ((DetectHttpHeadersRegisterStub http_user_agent freshRegistry).sigmatch_table
        http_user_agent.KEYWORD_ID).flags ≠
      {.SIGMATCH_NOOPT, .SIGMATCH_INFO_STICKY_BUFFER} := by
  rw [register_flags]
  refine ⟨⟨rfl, rfl⟩, ?_, ?_⟩ <;> decide

/-- C7: the prefilter-MPM entries `M` and the inspection-engine entries `I`
that one registration appends cover the same (direction, protocol) cells, and
an MPM entry and an inspection entry of the same cell carry the same buffer
name, the same extractor and the same progress milestone. -/
theorem register_mpm_inspect_paired (k : Keyword) (st : DetectRegistry) :
    ∃ (M : List MpmRegistration) (I : List InspectEngineRegistration),
      (DetectHttpHeadersRegisterStub k st).app_mpms = st.app_mpms ++ M ∧
      (DetectHttpHeadersRegisterStub k st).app_inspect_engines = st.app_inspect_engines ++ I ∧
      (∀ (dir : SigDir) (proto : AppProto),
        (∃ m ∈ M, m.direction = dir ∧ m.alproto = proto) ↔
          (∃ i ∈ I, i.dir = dir ∧ i.alproto = proto)) ∧
      (∀ m ∈ M, ∀ i ∈ I, m.direction = i.dir → m.alproto = i.alproto →
        m.name = i.name ∧ m.GetData = i.GetData ∧ m.tx_min_progress = i.progress) := by
  refine ⟨_, _, register_app_mpms k st, register_app_inspect_engines k st, ?_, ?_⟩
  · intro dir proto
    cases hs : k.KEYWORD_TOSERVER <;> cases hc : k.KEYWORD_TOCLIENT <;>
      simp [mpmToServer, mpmToClient, inspectToServer, inspectToClient]
  · intro m hm i hi
    cases hs : k.KEYWORD_TOSERVER <;> cases hc : k.KEYWORD_TOCLIENT <;>
      simp [hs, hc, mpmToServer, mpmToClient, inspectToServer, inspectToClient] at hm hi <;>
      casesm* _ ∨ _ <;> subst_vars <;> simp

/-- C8: the prefilter-MPM entries one registration appends are, in order, the
HTTP/1 and the HTTP/2 entry of the to-server direction when `KEYWORD_TOSERVER`
is defined, then the HTTP/1 and the HTTP/2 entry of the to-client direction
when `KEYWORD_TOCLIENT` is defined, with the arguments listed; an appended
entry binds a request extractor exactly when its direction is to-server. -/
theorem register_mpm_entries (k : Keyword) (st : DetectRegistry) :
    ∃ M : List MpmRegistration,
      (DetectHttpHeadersRegisterStub k st).app_mpms = st.app_mpms ++ M ∧
      M =
        (if k.KEYWORD_TOSERVER then
          [{ name := k.BUFFER_NAME, direction := .SIG_FLAG_TOSERVER, priority := 2,
             PrefilterRegister := .PrefilterGenericMpmRegister, GetData := .GetRequestData,
             alproto := .ALPROTO_HTTP1, tx_min_progress := .HTP_REQUEST_PROGRESS_HEADERS },
           { name := k.BUFFER_NAME, direction := .SIG_FLAG_TOSERVER, priority := 2,
             PrefilterRegister := .PrefilterGenericMpmRegister, GetData := .GetRequestData2,
             alproto := .ALPROTO_HTTP2, tx_min_progress := .HTTP2StateDataClient }]
         else []) ++
        (if k.KEYWORD_TOCLIENT then
          [{ name := k.BUFFER_NAME, direction := .SIG_FLAG_TOCLIENT, priority := 2,
             PrefilterRegister := .PrefilterGenericMpmRegister, GetData := .GetResponseData,
             alproto := .ALPROTO_HTTP1, tx_min_progress := .HTP_RESPONSE_PROGRESS_HEADERS },
           { name := k.BUFFER_NAME, direction := .SIG_FLAG_TOCLIENT, priority := 2,
             PrefilterRegister := .PrefilterGenericMpmRegister, GetData := .GetResponseData2,
             alproto := .ALPROTO_HTTP2, tx_min_progress := .HTTP2StateDataServer }]
         else []) ∧
      (∀ m ∈ M, (m.GetData.isRequest = true ↔ m.direction = .SIG_FLAG_TOSERVER)) := by
  refine ⟨_, register_app_mpms k st, rfl, ?_⟩
  intro m hm
  cases hs : k.KEYWORD_TOSERVER <;> cases hc : k.KEYWORD_TOCLIENT <;>
    simp [hs, hc, mpmToServer, mpmToClient] at hm <;>
    casesm* _ ∨ _ <;> subst_vars <;> simp [GetDataFn.isRequest]

/-- C9: when exactly one of `KEYWORD_TOSERVER` and `KEYWORD_TOCLIENT` is
defined, none of the prefilter-MPM entries `M` and none of the
inspection-engine entries `I` that the registration appends carries the
direction flag of the direction that is not defined. -/
theorem register_single_direction (k : Keyword) (st : DetectRegistry)
    (h : k.KEYWORD_TOSERVER ≠ k.KEYWORD_TOCLIENT) :
    ∃ (M : List MpmRegistration) (I : List InspectEngineRegistration),
      (DetectHttpHeadersRegisterStub k st).app_mpms = st.app_mpms ++ M ∧
      (DetectHttpHeadersRegisterStub k st).app_inspect_engines = st.app_inspect_engines ++ I ∧
      (k.KEYWORD_TOCLIENT = false →
        (∀ m ∈ M, m.direction ≠ .SIG_FLAG_TOCLIENT) ∧ (∀ i ∈ I, i.dir ≠ .SIG_FLAG_TOCLIENT)) ∧
      (k.KEYWORD_TOSERVER = false →
        (∀ m ∈ M, m.direction ≠ .SIG_FLAG_TOSERVER) ∧ (∀ i ∈ I, i.dir ≠ .SIG_FLAG_TOSERVER)) := by
  refine ⟨_, _, register_app_mpms k st, register_app_inspect_engines k st, ?_, ?_⟩
  · intro hc
    cases hs : k.KEYWORD_TOSERVER <;>
      simp [hs, hc, mpmToServer, mpmToClient, inspectToServer, inspectToClient] at h ⊢
  · intro hs
    cases hc : k.KEYWORD_TOCLIENT <;>
      simp [hs, hc, mpmToServer, mpmToClient, inspectToServer, inspectToClient] at h ⊢

/-- Witness for C9 at the to-server-only keyword `http.user_agent`. -/
theorem register_single_direction_witness :
    http_user_agent.KEYWORD_TOSERVER ≠ http_user_agent.KEYWORD_TOCLIENT ∧
    ∃ (M : List MpmRegistration) (I : List InspectEngineRegistration),
      (DetectHttpHeadersRegisterStub http_user_agent freshRegistry).app_mpms =
        freshRegistry.app_mpms ++ M ∧
      (DetectHttpHeadersRegisterStub http_user_agent freshRegistry).app_inspect_engines =
        freshRegistry.app_inspect_engines ++ I ∧
      (http_user_agent.KEYWORD_TOCLIENT = false →
        (∀ m ∈ M, m.direction ≠ .SIG_FLAG_TOCLIENT) ∧ (∀ i ∈ I, i.dir ≠ .SIG_FLAG_TOCLIENT)) ∧
      (http_user_agent.KEYWORD_TOSERVER = false →
        (∀ m ∈ M, m.direction ≠ .SIG_FLAG_TOSERVER) ∧ (∀ i ∈ I, i.dir ≠ .SIG_FLAG_TOSERVER)) :=
  ⟨by decide, register_single_direction http_user_agent freshRegistry (by decide)⟩

/-! ## Extractor theorems -/

/-- C5: called with an empty slot on a transaction in which the header is
absent (HTTP/1: the header lookup returns `NULL`; HTTP/2: the lookup returns
something other than 1), each of the four extractors returns `NULL`, makes no
call of `InspectionBufferSetupAndApplyTransforms`, and leaves the thread
context as it was, the slot still empty. -/
theorem extractor_absent (HEADER_NAME : String) (det_ctx : DetectEngineThreadCtx)
    (transforms : DetectEngineTransforms) (f : Flow) (flow_flags : Nat) (list_id : Int)
    (hempty : (InspectionBufferGet det_ctx list_id).inspect = none) :
    (∀ tx : htp_tx_t, tx.request_header HEADER_NAME = none →
      (GetRequestData HEADER_NAME det_ctx transforms f flow_flags tx list_id).ret = none ∧
      (∀ c ∈ (GetRequestData HEADER_NAME det_ctx transforms f flow_flags tx list_id).calls,
        c.isSetup = false) ∧
      (GetRequestData HEADER_NAME det_ctx transforms f flow_flags tx list_id).det_ctx = det_ctx ∧
      (InspectionBufferGet
        (GetRequestData HEADER_NAME det_ctx transforms f flow_flags tx list_id).det_ctx
        list_id).inspect = none) ∧
    (∀ tx : htp_tx_t, tx.response_header HEADER_NAME = none →
      (GetResponseData HEADER_NAME det_ctx transforms f flow_flags tx list_id).ret = none ∧
      (∀ c ∈ (GetResponseData HEADER_NAME det_ctx transforms f flow_flags tx list_id).calls,
        c.isSetup = false) ∧
      (GetResponseData HEADER_NAME det_ctx transforms f flow_flags tx list_id).det_ctx = det_ctx ∧
      (InspectionBufferGet
        (GetResponseData HEADER_NAME det_ctx transforms f flow_flags tx list_id).det_ctx
        list_id).inspect = none) ∧
    (∀ tx : HTTP2Transaction, (tx.SCHttp2TxGetHeaderValue .STREAM_TOSERVER HEADER_NAME).ret ≠ 1 →
      (GetRequestData2 HEADER_NAME det_ctx transforms f flow_flags tx list_id).ret = none ∧
      (∀ c ∈ (GetRequestData2 HEADER_NAME det_ctx transforms f flow_flags tx list_id).calls,
        c.isSetup = false) ∧
      (GetRequestData2 HEADER_NAME det_ctx transforms f flow_flags tx list_id).det_ctx = det_ctx ∧
      (InspectionBufferGet
        (GetRequestData2 HEADER_NAME det_ctx transforms f flow_flags tx list_id).det_ctx
        list_id).inspect = none) ∧
    (∀ tx : HTTP2Transaction, (tx.SCHttp2TxGetHeaderValue .STREAM_TOCLIENT HEADER_NAME).ret ≠ 1 →
      (GetResponseData2 HEADER_NAME det_ctx transforms f flow_flags tx list_id).ret = none ∧
      (∀ c ∈ (GetResponseData2 HEADER_NAME det_ctx transforms f flow_flags tx list_id).calls,
        c.isSetup = false) ∧
      (GetResponseData2 HEADER_NAME det_ctx transforms f flow_flags tx list_id).det_ctx = det_ctx ∧
      (InspectionBufferGet
        (GetResponseData2 HEADER_NAME det_ctx transforms f flow_flags tx list_id).det_ctx
        list_id).inspect = none) := by
  refine ⟨?_, ?_, ?_, ?_⟩
  · intro tx hab
    by_cases hh : tx.request_headers = false <;>
      simp [GetRequestData, hempty, hab, hh, Call.isSetup]
  · intro tx hab
    by_cases hh : tx.response_headers = false <;>
      simp [GetResponseData, hempty, hab, hh, Call.isSetup]
  · intro tx hab
    simp [GetRequestData2, hempty, hab, Call.isSetup]
  · intro tx hab
    simp [GetResponseData2, hempty, hab, Call.isSetup]

/-- Witness for C5: empty slot 0, HTTP/1 transaction without `User-Agent`,
HTTP/2 transaction in which no header is found. -/
theorem extractor_absent_witness :
    (InspectionBufferGet emptyCtx 0).inspect = none ∧
    txNoUserAgent.request_header "User-Agent" = none ∧
    (GetRequestData "User-Agent" emptyCtx [] () 0 txNoUserAgent 0).ret = none ∧
    (GetResponseData "User-Agent" emptyCtx [] () 0 txNoUserAgent 0).ret = none ∧
    (GetRequestData2 "User-Agent" emptyCtx [] () 0 h2NoHeader 0).ret = none ∧
    (GetResponseData2 "User-Agent" emptyCtx [] () 0 h2NoHeader 0).ret = none :=
  ⟨rfl, rfl,
    ((extractor_absent "User-Agent" emptyCtx [] () 0 0 rfl).1 txNoUserAgent rfl).1,
    ((extractor_absent "User-Agent" emptyCtx [] () 0 0 rfl).2.1 txNoUserAgent rfl).1,
    ((extractor_absent "User-Agent" emptyCtx [] () 0 0 rfl).2.2.1 h2NoHeader (by decide)).1,
    ((extractor_absent "User-Agent" emptyCtx [] () 0 0 rfl).2.2.2 h2NoHeader (by decide)).1⟩

/-- C10: called with an empty slot, `GetRequestData2` consults the header
store once, with `STREAM_TOSERVER`, and `GetResponseData2` once, with
`STREAM_TOCLIENT`; each returns the slot exactly when that lookup returned 1
with a non-null pointer and a non-zero length, and for every other lookup
result it returns `NULL` and leaves the thread context as it was, the slot
still empty. -/
theorem extractor_http2 (HEADER_NAME : String) (det_ctx : DetectEngineThreadCtx)
    (transforms : DetectEngineTransforms) (f : Flow) (flow_flags : Nat) (list_id : Int)
    (tx : HTTP2Transaction)
    (hempty : (InspectionBufferGet det_ctx list_id).inspect = none) :
    ((GetRequestData2 HEADER_NAME det_ctx transforms f flow_flags tx list_id).calls.filter
        Call.isParserLookup = [.SCHttp2TxGetHeaderValue .STREAM_TOSERVER HEADER_NAME] ∧
     ((GetRequestData2 HEADER_NAME det_ctx transforms f flow_flags tx list_id).ret = some list_id ↔
        (tx.SCHttp2TxGetHeaderValue .STREAM_TOSERVER HEADER_NAME).ret = 1 ∧
        (tx.SCHttp2TxGetHeaderValue .STREAM_TOSERVER HEADER_NAME).b ≠ none ∧
        (tx.SCHttp2TxGetHeaderValue .STREAM_TOSERVER HEADER_NAME).b_len ≠ 0) ∧
     (¬ ((tx.SCHttp2TxGetHeaderValue .STREAM_TOSERVER HEADER_NAME).ret = 1 ∧
        (tx.SCHttp2TxGetHeaderValue .STREAM_TOSERVER HEADER_NAME).b ≠ none ∧
        (tx.SCHttp2TxGetHeaderValue .STREAM_TOSERVER HEADER_NAME).b_len ≠ 0) →
      (GetRequestData2 HEADER_NAME det_ctx transforms f flow_flags tx list_id).ret = none ∧
      (GetRequestData2 HEADER_NAME det_ctx transforms f flow_flags tx list_id).det_ctx = det_ctx ∧
      (InspectionBufferGet
        (GetRequestData2 HEADER_NAME det_ctx transforms f flow_flags tx list_id).det_ctx
        list_id).inspect = none)) ∧
    ((GetResponseData2 HEADER_NAME det_ctx transforms f flow_flags tx list_id).calls.filter
        Call.isParserLookup = [.SCHttp2TxGetHeaderValue .STREAM_TOCLIENT HEADER_NAME] ∧
     ((GetResponseData2 HEADER_NAME det_ctx transforms f flow_flags tx list_id).ret = some list_id ↔
        (tx.SCHttp2TxGetHeaderValue .STREAM_TOCLIENT HEADER_NAME).ret = 1 ∧
        (tx.SCHttp2TxGetHeaderValue .STREAM_TOCLIENT HEADER_NAME).b ≠ none ∧
        (tx.SCHttp2TxGetHeaderValue .STREAM_TOCLIENT HEADER_NAME).b_len ≠ 0) ∧
     (¬ ((tx.SCHttp2TxGetHeaderValue .STREAM_TOCLIENT HEADER_NAME).ret = 1 ∧
        (tx.SCHttp2TxGetHeaderValue .STREAM_TOCLIENT HEADER_NAME).b ≠ none ∧
        (tx.SCHttp2TxGetHeaderValue .STREAM_TOCLIENT HEADER_NAME).b_len ≠ 0) →
      (GetResponseData2 HEADER_NAME det_ctx transforms f flow_flags tx list_id).ret = none ∧
      (GetResponseData2 HEADER_NAME det_ctx transforms f flow_flags tx list_id).det_ctx = det_ctx ∧
      (InspectionBufferGet
        (GetResponseData2 HEADER_NAME det_ctx transforms f flow_flags tx list_id).det_ctx
        list_id).inspect = none)) := by
  constructor
  · by_cases h1 : (tx.SCHttp2TxGetHeaderValue .STREAM_TOSERVER HEADER_NAME).ret = 1
    · by_cases h2 : (tx.SCHttp2TxGetHeaderValue .STREAM_TOSERVER HEADER_NAME).b = none
      · simp [GetRequestData2, hempty, h1, h2, Call.isParserLookup]
      · by_cases h3 : (tx.SCHttp2TxGetHeaderValue .STREAM_TOSERVER HEADER_NAME).b_len = 0 <;>
          simp [GetRequestData2, hempty, h1, h2, h3, Call.isParserLookup]
    · simp [GetRequestData2, hempty, h1, Call.isParserLookup]
  · by_cases h1 : (tx.SCHttp2TxGetHeaderValue .STREAM_TOCLIENT HEADER_NAME).ret = 1
    · by_cases h2 : (tx.SCHttp2TxGetHeaderValue .STREAM_TOCLIENT HEADER_NAME).b = none
      · simp [GetResponseData2, hempty, h1, h2, Call.isParserLookup]
      · by_cases h3 : (tx.SCHttp2TxGetHeaderValue .STREAM_TOCLIENT HEADER_NAME).b_len = 0 <;>
          simp [GetResponseData2, hempty, h1, h2, h3, Call.isParserLookup]
    · simp [GetResponseData2, hempty, h1, Call.isParserLookup]

/-- Witness for C10: empty slot 0 and the HTTP/2 transaction of scenario 4;
both extractors return slot 0. -/
theorem extractor_http2_witness :
    (InspectionBufferGet emptyCtx 0).inspect = none ∧
    (GetRequestData2 "User-Agent" emptyCtx [] () 0 h2Mozilla 0).ret = some 0 ∧
    (GetResponseData2 "User-Agent" emptyCtx [] () 0 h2Mozilla 0).ret = some 0 :=
  ⟨rfl,
    (extractor_http2 "User-Agent" emptyCtx [] () 0 0 h2Mozilla rfl).1.2.1.mpr (by decide),
    (extractor_http2 "User-Agent" emptyCtx [] () 0 0 h2Mozilla rfl).2.2.1.mpr (by decide)⟩

/-- C2, at the failing input: an HTTP/1 message with `User-Agent:` present and
a zero-length value, inspected with an empty slot 0.  `GetRequestData` and
`GetResponseData` do not return `NULL`: each passes the `NULL` tests of line
61 (line 115), calls `InspectionBufferSetupAndApplyTransforms` with length 0,
returns slot 0, and the slot is filled with zero bytes afterwards. -/
theorem http1_empty_value_not_absent :
    (InspectionBufferGet emptyCtx 0).inspect = none ∧
    (GetRequestData "User-Agent" emptyCtx [] () 0 txEmptyUserAgent 0).ret = some 0 ∧
    (GetRequestData "User-Agent" emptyCtx [] () 0 txEmptyUserAgent 0).calls.filter Call.isSetup =
      [.InspectionBufferSetupAndApplyTransforms 0 (some []) 0 []] ∧
    InspectionBufferGet
      (GetRequestData "User-Agent" emptyCtx [] () 0 txEmptyUserAgent 0).det_ctx 0 =
      { inspect := some [], inspect_len := 0 } ∧
    (GetResponseData "User-Agent" emptyCtx [] () 0 txEmptyUserAgent 0).ret = some 0 ∧
    (GetResponseData "User-Agent" emptyCtx [] () 0 txEmptyUserAgent 0).calls.filter Call.isSetup =
      [.InspectionBufferSetupAndApplyTransforms 0 (some []) 0 []] ∧
    InspectionBufferGet
      (GetResponseData "User-Agent" emptyCtx [] () 0 txEmptyUserAgent 0).det_ctx 0 =
      { inspect := some [], inspect_len := 0 } :=
  ⟨rfl, rfl, rfl, rfl, rfl, rfl, rfl⟩

/-- C6, counterexample: the header of `txHuge` is present with a value whose
reported length is `2 ^ 32`; `GetRequestData` hands
`InspectionBufferSetupAndApplyTransforms` the length 0, not `2 ^ 32`. -/
theorem http1_length_truncated :
    (InspectionBufferGet emptyCtx 0).inspect = none ∧
    txHuge.request_header "User-Agent" =
      some { value := true, value_len := 4294967296, value_ptr := some curlBytes } ∧
    (GetRequestData "User-Agent" emptyCtx [] () 0 txHuge 0).calls.filter Call.isSetup =
      [.InspectionBufferSetupAndApplyTransforms 0 (some curlBytes) 0 []] :=
  ⟨rfl, rfl, rfl⟩

/-- C6, amended: called with an empty slot on a transaction in which the
header is present with a non-empty value, each extractor makes exactly one
call of `InspectionBufferSetupAndApplyTransforms`, for slot `list_id`, with
the value pointer the parser reports, the caller's transform chain, and as
length: for the HTTP/1 extractors the reported `size_t` length reduced modulo
`2 ^ 32` (the full length whenever that is below `2 ^ 32`), for the HTTP/2
extractors the `uint32_t` length the lookup wrote; and it returns the slot
for `list_id`. -/
theorem extractor_present (HEADER_NAME : String) (det_ctx : DetectEngineThreadCtx)
    (transforms : DetectEngineTransforms) (f : Flow) (flow_flags : Nat) (list_id : Int)
    (hempty : (InspectionBufferGet det_ctx list_id).inspect = none) :
    (∀ (tx : htp_tx_t) (h : htp_header_t), tx.request_headers = true →
      tx.request_header HEADER_NAME = some h → h.value = true → 0 < h.value_len →
      (GetRequestData HEADER_NAME det_ctx transforms f flow_flags tx list_id).calls.filter
          Call.isSetup =
        [.InspectionBufferSetupAndApplyTransforms list_id h.value_ptr (h.value_len % 2 ^ 32)
          transforms] ∧
      (h.value_len < 2 ^ 32 →
        (GetRequestData HEADER_NAME det_ctx transforms f flow_flags tx list_id).calls.filter
            Call.isSetup =
          [.InspectionBufferSetupAndApplyTransforms list_id h.value_ptr h.value_len
            transforms]) ∧
      (GetRequestData HEADER_NAME det_ctx transforms f flow_flags tx list_id).ret =
        some list_id) ∧
    (∀ (tx : htp_tx_t) (h : htp_header_t), tx.response_headers = true →
      tx.response_header HEADER_NAME = some h → h.value = true → 0 < h.value_len →
      (GetResponseData HEADER_NAME det_ctx transforms f flow_flags tx list_id).calls.filter
          Call.isSetup =
        [.InspectionBufferSetupAndApplyTransforms list_id h.value_ptr (h.value_len % 2 ^ 32)
          transforms] ∧
      (h.value_len < 2 ^ 32 →
        (GetResponseData HEADER_NAME det_ctx transforms f flow_flags tx list_id).calls.filter
            Call.isSetup =
          [.InspectionBufferSetupAndApplyTransforms list_id h.value_ptr h.value_len
            transforms]) ∧
      (GetResponseData HEADER_NAME det_ctx transforms f flow_flags tx list_id).ret =
        some list_id) ∧
    (∀ tx : HTTP2Transaction,
      (tx.SCHttp2TxGetHeaderValue .STREAM_TOSERVER HEADER_NAME).ret = 1 →
      (tx.SCHttp2TxGetHeaderValue .STREAM_TOSERVER HEADER_NAME).b ≠ none →
      (tx.SCHttp2TxGetHeaderValue .STREAM_TOSERVER HEADER_NAME).b_len ≠ 0 →
      (GetRequestData2 HEADER_NAME det_ctx transforms f flow_flags tx list_id).calls.filter
          Call.isSetup =
        [.InspectionBufferSetupAndApplyTransforms list_id
          (tx.SCHttp2TxGetHeaderValue .STREAM_TOSERVER HEADER_NAME).b
          (tx.SCHttp2TxGetHeaderValue .STREAM_TOSERVER HEADER_NAME).b_len transforms] ∧
      (GetRequestData2 HEADER_NAME det_ctx transforms f flow_flags tx list_id).ret =
        some list_id) ∧
    (∀ tx : HTTP2Transaction,
      (tx.SCHttp2TxGetHeaderValue .STREAM_TOCLIENT HEADER_NAME).ret = 1 →
      (tx.SCHttp2TxGetHeaderValue .STREAM_TOCLIENT HEADER_NAME).b ≠ none →
      (tx.SCHttp2TxGetHeaderValue .STREAM_TOCLIENT HEADER_NAME).b_len ≠ 0 →
      (GetResponseData2 HEADER_NAME det_ctx transforms f flow_flags tx list_id).calls.filter
          Call.isSetup =
        [.InspectionBufferSetupAndApplyTransforms list_id
          (tx.SCHttp2TxGetHeaderValue .STREAM_TOCLIENT HEADER_NAME).b
          (tx.SCHttp2TxGetHeaderValue .STREAM_TOCLIENT HEADER_NAME).b_len transforms] ∧
      (GetResponseData2 HEADER_NAME det_ctx transforms f flow_flags tx list_id).ret =
        some list_id) := by
  refine ⟨?_, ?_, ?_, ?_⟩
  · intro tx h hh hl hv _
    refine ⟨?_, ?_, ?_⟩
    · simp [GetRequestData, hempty, hh, hl, hv, Call.isSetup]
    · intro hlt
      have hlt2 : h.value_len < 4294967296 := by simpa using hlt
      simp [GetRequestData, hempty, hh, hl, hv, Call.isSetup, Nat.mod_eq_of_lt hlt2]
    · simp [GetRequestData, hempty, hh, hl, hv]
  · intro tx h hh hl hv _
    refine ⟨?_, ?_, ?_⟩
    · simp [GetResponseData, hempty, hh, hl, hv, Call.isSetup]
    · intro hlt
      have hlt2 : h.value_len < 4294967296 := by simpa using hlt
      simp [GetResponseData, hempty, hh, hl, hv, Call.isSetup, Nat.mod_eq_of_lt hlt2]
    · simp [GetResponseData, hempty, hh, hl, hv]
  · intro tx h1 h2 h3
    simp [GetRequestData2, hempty, h1, h2, h3, Call.isSetup]
  · intro tx h1 h2 h3
    simp [GetResponseData2, hempty, h1, h2, h3, Call.isSetup]

/-- Witness for C6 amended: scenario 1 (`User-Agent: curl/8.0`, length 8) and
scenario 4 (HTTP/2, `Mozilla/5.0`, length 11), empty slot 0. -/
theorem extractor_present_witness :
    (InspectionBufferGet emptyCtx 0).inspect = none ∧
    (GetRequestData "User-Agent" emptyCtx [] () 0 txCurl 0).calls.filter Call.isSetup =
      [.InspectionBufferSetupAndApplyTransforms 0 (some curlBytes) 8 []] ∧
    (GetResponseData "User-Agent" emptyCtx [] () 0 txCurl 0).calls.filter Call.isSetup =
      [.InspectionBufferSetupAndApplyTransforms 0 (some curlBytes) 8 []] ∧
    (GetRequestData2 "User-Agent" emptyCtx [] () 0 h2Mozilla 0).calls.filter Call.isSetup =
      [.InspectionBufferSetupAndApplyTransforms 0 (some mozillaBytes) 11 []] ∧
    (GetResponseData2 "User-Agent" emptyCtx [] () 0 h2Mozilla 0).calls.filter Call.isSetup =
      [.InspectionBufferSetupAndApplyTransforms 0 (some mozillaBytes) 11 []] :=
  ⟨rfl,
    ((extractor_present "User-Agent" emptyCtx [] () 0 0 rfl).1 txCurl
      { value := true, value_len := 8, value_ptr := some curlBytes } rfl rfl rfl
      (by decide)).2.1 (by decide),
    ((extractor_present "User-Agent" emptyCtx [] () 0 0 rfl).2.1 txCurl
      { value := true, value_len := 8, value_ptr := some curlBytes } rfl rfl rfl
      (by decide)).2.1 (by decide),
    ((extractor_present "User-Agent" emptyCtx [] () 0 0 rfl).2.2.1 h2Mozilla
      (by decide) (by decide) (by decide)).1,
    ((extractor_present "User-Agent" emptyCtx [] () 0 0 rfl).2.2.2 h2Mozilla
      (by decide) (by decide) (by decide)).1⟩

/-- C4: for each of the four extractors, a second call on the same
transaction and list id, made on the thread context the first call left,
returns what the first returned and leaves the thread context, hence the
length and content of the slot, as the first call left it; when the first
call returned the slot, the second makes no parser lookup and no call of
`InspectionBufferSetupAndApplyTransforms`. -/
theorem extractor_idempotent (HEADER_NAME : String) (det_ctx : DetectEngineThreadCtx)
    (transforms : DetectEngineTransforms) (f : Flow) (flow_flags : Nat) (list_id : Int)
    (tx : htp_tx_t) (tx2 : HTTP2Transaction) :
    ((GetRequestData HEADER_NAME
        (GetRequestData HEADER_NAME det_ctx transforms f flow_flags tx list_id).det_ctx
        transforms f flow_flags tx list_id).ret =
      (GetRequestData HEADER_NAME det_ctx transforms f flow_flags tx list_id).ret ∧
     (GetRequestData HEADER_NAME
        (GetRequestData HEADER_NAME det_ctx transforms f flow_flags tx list_id).det_ctx
        transforms f flow_flags tx list_id).det_ctx =
      (GetRequestData HEADER_NAME det_ctx transforms f flow_flags tx list_id).det_ctx ∧
     ((GetRequestData HEADER_NAME det_ctx transforms f flow_flags tx list_id).ret ≠ none →
      ∀ c ∈ (GetRequestData HEADER_NAME
        (GetRequestData HEADER_NAME det_ctx transforms f flow_flags tx list_id).det_ctx
        transforms f flow_flags tx list_id).calls,
        c.isParserLookup = false ∧ c.isSetup = false)) ∧
    ((GetRequestData2 HEADER_NAME
        (GetRequestData2 HEADER_NAME det_ctx transforms f flow_flags tx2 list_id).det_ctx
        transforms f flow_flags tx2 list_id).ret =
      (GetRequestData2 HEADER_NAME det_ctx transforms f flow_flags tx2 list_id).ret ∧
     (GetRequestData2 HEADER_NAME
        (GetRequestData2 HEADER_NAME det_ctx transforms f flow_flags tx2 list_id).det_ctx
        transforms f flow_flags tx2 list_id).det_ctx =
      (GetRequestData2 HEADER_NAME det_ctx transforms f flow_flags tx2 list_id).det_ctx ∧
     ((GetRequestData2 HEADER_NAME det_ctx transforms f flow_flags tx2 list_id).ret ≠ none →
      ∀ c ∈ (GetRequestData2 HEADER_NAME
        (GetRequestData2 HEADER_NAME det_ctx transforms f flow_flags tx2 list_id).det_ctx
        transforms f flow_flags tx2 list_id).calls,
        c.isParserLookup = false ∧ c.isSetup = false)) ∧
    ((GetResponseData HEADER_NAME
        (GetResponseData HEADER_NAME det_ctx transforms f flow_flags tx list_id).det_ctx
        transforms f flow_flags tx list_id).ret =
      (GetResponseData HEADER_NAME det_ctx transforms f flow_flags tx list_id).ret ∧
     (GetResponseData HEADER_NAME
        (GetResponseData HEADER_NAME det_ctx transforms f flow_flags tx list_id).det_ctx
        transforms f flow_flags tx list_id).det_ctx =
      (GetResponseData HEADER_NAME det_ctx transforms f flow_flags tx list_id).det_ctx ∧
     ((GetResponseData HEADER_NAME det_ctx transforms f flow_flags tx list_id).ret ≠ none →
      ∀ c ∈ (GetResponseData HEADER_NAME
        (GetResponseData HEADER_NAME det_ctx transforms f flow_flags tx list_id).det_ctx
        transforms f flow_flags tx list_id).calls,
        c.isParserLookup = false ∧ c.isSetup = false)) ∧
    ((GetResponseData2 HEADER_NAME
        (GetResponseData2 HEADER_NAME det_ctx transforms f flow_flags tx2 list_id).det_ctx
        transforms f flow_flags tx2 list_id).ret =
      (GetResponseData2 HEADER_NAME det_ctx transforms f flow_flags tx2 list_id).ret ∧
     (GetResponseData2 HEADER_NAME
        (GetResponseData2 HEADER_NAME det_ctx transforms f flow_flags tx2 list_id).det_ctx
        transforms f flow_flags tx2 list_id).det_ctx =
      (GetResponseData2 HEADER_NAME det_ctx transforms f flow_flags tx2 list_id).det_ctx ∧
     ((GetResponseData2 HEADER_NAME det_ctx transforms f flow_flags tx2 list_id).ret ≠ none →
      ∀ c ∈ (GetResponseData2 HEADER_NAME
        (GetResponseData2 HEADER_NAME det_ctx transforms f flow_flags tx2 list_id).det_ctx
        transforms f flow_flags tx2 list_id).calls,
        c.isParserLookup = false ∧ c.isSetup = false)) := by
  refine ⟨?_, ?_, ?_, ?_⟩
  · by_cases h0 : (det_ctx.buffers list_id).inspect = none
    · by_cases h1 : tx.request_headers = false
      · simp [GetRequestData, InspectionBufferGet, h0, h1]
      · cases h2 : tx.request_header HEADER_NAME with
        | none => simp [GetRequestData, InspectionBufferGet, h0, h1, h2]
        | some h =>
          by_cases h3 : h.value = false <;>
            simp [GetRequestData, InspectionBufferGet, InspectionBufferSetupAndApplyTransforms,
              h0, h1, h2, h3, Call.isParserLookup, Call.isSetup]
    · simp [GetRequestData, InspectionBufferGet, h0, Call.isParserLookup, Call.isSetup]
  · by_cases h0 : (det_ctx.buffers list_id).inspect = none
    · by_cases h1 : (tx2.SCHttp2TxGetHeaderValue .STREAM_TOSERVER HEADER_NAME).ret = 1
      · by_cases h2 : (tx2.SCHttp2TxGetHeaderValue .STREAM_TOSERVER HEADER_NAME).b = none
        · simp [GetRequestData2, InspectionBufferGet, h0, h1, h2]
        · by_cases h3 : (tx2.SCHttp2TxGetHeaderValue .STREAM_TOSERVER HEADER_NAME).b_len = 0 <;>
            simp [GetRequestData2, InspectionBufferGet, InspectionBufferSetupAndApplyTransforms,
              h0, h1, h2, h3, Call.isParserLookup, Call.isSetup]
      · simp [GetRequestData2, InspectionBufferGet, h0, h1]
    · simp [GetRequestData2, InspectionBufferGet, h0, Call.isParserLookup, Call.isSetup]
  · by_cases h0 : (det_ctx.buffers list_id).inspect = none
    · by_cases h1 : tx.response_headers = false
      · simp [GetResponseData, InspectionBufferGet, h0, h1]
      · cases h2 : tx.response_header HEADER_NAME with
        | none => simp [GetResponseData, InspectionBufferGet, h0, h1, h2]
        | some h =>
          by_cases h3 : h.value = false <;>
            simp [GetResponseData, InspectionBufferGet, InspectionBufferSetupAndApplyTransforms,
              h0, h1, h2, h3, Call.isParserLookup, Call.isSetup]
    · simp [GetResponseData, InspectionBufferGet, h0, Call.isParserLookup, Call.isSetup]
  · by_cases h0 : (det_ctx.buffers list_id).inspect = none
    · by_cases h1 : (tx2.SCHttp2TxGetHeaderValue .STREAM_TOCLIENT HEADER_NAME).ret = 1
      · by_cases h2 : (tx2.SCHttp2TxGetHeaderValue .STREAM_TOCLIENT HEADER_NAME).b = none
        · simp [GetResponseData2, InspectionBufferGet, h0, h1, h2]
        · by_cases h3 : (tx2.SCHttp2TxGetHeaderValue .STREAM_TOCLIENT HEADER_NAME).b_len = 0 <;>
            simp [GetResponseData2, InspectionBufferGet, InspectionBufferSetupAndApplyTransforms,
              h0, h1, h2, h3, Call.isParserLookup, Call.isSetup]
      · simp [GetResponseData2, InspectionBufferGet, h0, h1]
    · simp [GetResponseData2, InspectionBufferGet, h0, Call.isParserLookup, Call.isSetup]

/-! ## Setup hook theorems -/

/-- C3, counterexample: buffer id 7 resolves and the signature is already
pinned to a protocol outside the HTTP family.  The hook returns -1 and the
signature it leaves has active sticky list 7, where it had none before. -/
theorem setup_sticky_failure_keeps_list :
    DetectHttpHeadersSetupSticky specHost 7 deCtx7 sigOtherProto "" =
      (-1, deCtx7, { alproto := .other 1, list := some 7 }) ∧
    sigOtherProto.list = none ∧
    (DetectHttpHeadersSetupSticky specHost 7 deCtx7 sigOtherProto "").2.2 ≠ sigOtherProto := by
  decide

/-- C3, amended: with host calls that change nothing when they fail, a
failing hook (-1) is in one of two cases.  Either setting the active list
failed, and then detect context and signature are as before the call; or
setting the active list succeeded and setting the application protocol
failed, and then detect context and signature are the ones the successful
`SCDetectBufferSetActiveList` left: the new active list stays. -/
theorem setup_sticky_failure_state {DeCtx Sig : Type} (host : SetupHost DeCtx Sig)
    (g_buffer_id : Int) (de_ctx : DeCtx) (s : Sig) (str : String)
    (hlist : ∀ d sg l, (host.SCDetectBufferSetActiveList d sg l).1 < 0 →
      (host.SCDetectBufferSetActiveList d sg l).2 = (d, sg))
    (hproto : ∀ sg p, (host.SCDetectSignatureSetAppProto sg p).1 < 0 →
      (host.SCDetectSignatureSetAppProto sg p).2 = sg)
    (hfail : (DetectHttpHeadersSetupSticky host g_buffer_id de_ctx s str).1 = -1) :
    ((host.SCDetectBufferSetActiveList de_ctx s g_buffer_id).1 < 0 ∧
      (DetectHttpHeadersSetupSticky host g_buffer_id de_ctx s str).2 = (de_ctx, s)) ∨
    (¬ (host.SCDetectBufferSetActiveList de_ctx s g_buffer_id).1 < 0 ∧
      (host.SCDetectSignatureSetAppProto
        (host.SCDetectBufferSetActiveList de_ctx s g_buffer_id).2.2 .ALPROTO_HTTP).1 < 0 ∧
      (DetectHttpHeadersSetupSticky host g_buffer_id de_ctx s str).2 =
        (host.SCDetectBufferSetActiveList de_ctx s g_buffer_id).2) := by
  by_cases h1 : (host.SCDetectBufferSetActiveList de_ctx s g_buffer_id).1 < 0
  · left
    refine ⟨h1, ?_⟩
    have h := hlist de_ctx s g_buffer_id h1
    simp only [DetectHttpHeadersSetupSticky, h1, if_true]
    exact h
  · right
    by_cases h2 : (host.SCDetectSignatureSetAppProto
        (host.SCDetectBufferSetActiveList de_ctx s g_buffer_id).2.2 .ALPROTO_HTTP).1 < 0
    · refine ⟨h1, h2, ?_⟩
      have h := hproto _ _ h2
      simp only [DetectHttpHeadersSetupSticky, h1, h2, if_true, if_false, h]
    · simp [DetectHttpHeadersSetupSticky, h1, h2] at hfail

/-- Witness for C3 amended: the host of the spec, buffer id 7 resolved, a
signature pinned outside the HTTP family; the second case applies. -/
theorem setup_sticky_failure_state_witness :
    (DetectHttpHeadersSetupSticky specHost 7 deCtx7 sigOtherProto "").1 = -1 ∧
    (((specHost.SCDetectBufferSetActiveList deCtx7 sigOtherProto 7).1 < 0 ∧
      (DetectHttpHeadersSetupSticky specHost 7 deCtx7 sigOtherProto "").2 =
        (deCtx7, sigOtherProto)) ∨
    (¬ (specHost.SCDetectBufferSetActiveList deCtx7 sigOtherProto 7).1 < 0 ∧
      (specHost.SCDetectSignatureSetAppProto
        (specHost.SCDetectBufferSetActiveList deCtx7 sigOtherProto 7).2.2 .ALPROTO_HTTP).1 < 0 ∧
      (DetectHttpHeadersSetupSticky specHost 7 deCtx7 sigOtherProto "").2 =
        (specHost.SCDetectBufferSetActiveList deCtx7 sigOtherProto 7).2)) :=
  ⟨by decide,
    setup_sticky_failure_state specHost 7 deCtx7 sigOtherProto ""
      (by
        intro d sg l h
        simp only [specHost, SCDetectBufferSetActiveList] at h ⊢
        split_ifs at h ⊢ with hm
        · simp at h
        · rfl)
      (by
        intro sg p h
        simp only [specHost, SCDetectSignatureSetAppProto] at h ⊢
        split_ifs at h ⊢ <;> first | rfl | simp at h)
      (by decide)⟩

end HttpHeadersStub
